import Mathlib

/-!
# Verification of the BreastCancer filtering and retrieval pipeline

A shallow embedding of the repository's core modules, with theorems about
the claims of the specification.

Modelling conventions:
* Python exceptions are embedded as `Except PyErr`; a total Lean return
  type embeds a Python function that cannot raise on the modelled paths.
* A fetched database row (a Python tuple produced by `cursor.fetchall()`)
  is a `List String`: in the ingested `patients` schema the columns probed
  by the row-level operations (indices 0, 2, 3 and 14) are non-null text.
* The SQL-level view of the store used by `get_distinct_values` is a
  `Table` with named columns and nullable (`Option String`) cells, since
  `SELECT DISTINCT ... WHERE ... IS NOT NULL` is sensitive to NULLs.
* `PatientDataFilterLogic` calls pandas `DataFrame` methods (`.drop`,
  `.empty`, column subscripting) on the values handed back by
  `DatabaseHandler`, which are plain Python lists of tuples.  To embed this
  dynamic dispatch faithfully, such values are wrapped in `PyTabular`,
  whose method embeddings raise `AttributeError`/`TypeError` exactly when
  the receiver is a plain list, as Python does.
* Python `str.upper` is embedded as `pyUpper`, a character-wise upper-case
  map (the data involved is ASCII), and `pathlib` path joining as string
  concatenation with `/`.
-/

/-- Embeddings of the Python exception classes raised by the code. -/
inductive PyErr where
  | attributeError (msg : String)
  | typeError (msg : String)
  | keyError (msg : String)
  | valueError (msg : String)
  | connectionError (msg : String)
  | indexError (msg : String)
  | fileNotFoundError (msg : String)
  deriving DecidableEq, Repr

/-- A row of the `patients` table as fetched by `cursor.fetchall()`:
a tuple of text values, positional. -/
abbrev Row := List String

/-- Python `str.upper` for the ASCII data treated here: character-wise
uppercasing. -/
def pyUpper (s : String) : String := String.mk (s.data.map Char.toUpper)

namespace DatabaseHandler

/-- The single `patients` relation backing a database file: named columns
and rows of nullable cells, as SQLite presents them. -/
structure Table where
  columns : List String
  rows : List (List (Option String))
  deriving DecidableEq, Repr

/-- `DatabaseHandler.__init__` / `__enter__`: a handler holds a connection
that is either open on a table or not open. -/
structure Handler where
  connection : Option Table
  deriving DecidableEq, Repr

/-- `DatabaseHandler.get_column_names`: column names of the `patients`
table; `ConnectionError` if the connection is not open. -/
def get_column_names (h : Handler) : Except PyErr (List String) :=
  match h.connection with
  | none => .error (.connectionError "Database connection is not open.")
  | some t => .ok t.columns

/-- The value sequence of a named column (cells in row order). -/
def columnValues (t : Table) (column_name : String) : List (Option String) :=
  t.rows.map (fun r => r.getD (t.columns.indexOf column_name) none)

/-- `SELECT DISTINCT c FROM patients WHERE c IS NOT NULL ORDER BY c`:
the non-null cells, deduplicated and sorted ascending. -/
def sqlDistinctSorted (vals : List (Option String)) : List String :=
  List.insertionSort (· ≤ ·) (vals.filterMap id).dedup

/-- `DatabaseHandler.get_distinct_values`: validates that the column
exists (raising `ValueError` otherwise) and returns the distinct non-null
values of the column in ascending order; `ConnectionError` if the
connection is not open. -/
def get_distinct_values (h : Handler) (column_name : String) :
    Except PyErr (List String) :=
  match h.connection with
  | none => .error (.connectionError "Database connection is not open.")
  | some t =>
    if column_name ∈ t.columns then
      .ok (sqlDistinctSorted (columnValues t column_name))
    else
      .error (.valueError "Invalid column name: does not exist in the table.")

/-- `DatabaseHandler.get_rows_by_patient_id`, row-tuple view:
`SELECT * FROM patients WHERE patient_id = ?`.  In the ingested schema
`patient_id` is column 0. -/
def get_rows_by_patient_id (db : List Row) (patient_id : String) : List Row :=
  db.filter (fun row => row.getD 0 "" == patient_id)

/-- `DatabaseHandler.filter_by_breast_side`: keeps the rows whose column 2
(`left or right breast`) equals `side` up to `upper()`; a row too short
for index 2 is skipped by the `len(row) > column_index` guard. -/
def filter_by_breast_side (rows : List Row) (side : String) : List Row :=
  let column_index := 2
  let side_upper := pyUpper side
  rows.filter (fun row =>
    decide (column_index < row.length) &&
      (pyUpper (row.getD column_index "") == side_upper))

/-- `DatabaseHandler.filter_by_image_view`: keeps the rows whose column 3
(`image view`) equals `image_view` up to `upper()`; a row too short for
index 3 is skipped by the `len(row) > column_index` guard. -/
def filter_by_image_view (rows : List Row) (image_view : String) : List Row :=
  let column_index := 3
  let image_view_upper := pyUpper image_view
  rows.filter (fun row =>
    decide (column_index < row.length) &&
      (pyUpper (row.getD column_index "") == image_view_upper))

/-- `DatabaseHandler.get_dicom_paths`: projects column 14
(`global image dicom path`) from each row long enough to have it. -/
def get_dicom_paths (rows : List Row) : List String :=
  let column_index := 14
  (rows.filter (fun row => decide (column_index < row.length))).map
    (fun row => row.getD column_index "")

end DatabaseHandler

/-- A value of the shape flowing between `DatabaseHandler` and
`PatientDataFilterLogic`: either a plain Python list of row tuples (what
`DatabaseHandler` actually returns) or a pandas `DataFrame` (what
`PatientDataFilterLogic` assumes it receives). -/
inductive PyTabular where
  | pyList (rows : List Row)
  | pyDataFrame (columns : List String) (rows : List Row)
  deriving DecidableEq, Repr

namespace PyTabular

/-- `obj.drop(columns=cols, errors="ignore")`: defined on a `DataFrame`
(removing the named columns and their cells; unknown names ignored); on a
plain list Python raises `AttributeError`. -/
def drop : PyTabular → List String → Except PyErr PyTabular
  | .pyDataFrame cols rows, toDrop =>
    .ok (.pyDataFrame (cols.filter (fun c => !(toDrop.contains c)))
      (rows.map (fun r =>
        ((cols.zip r).filter (fun p => !(toDrop.contains p.1))).map Prod.snd)))
  | .pyList _, _ =>
    .error (.attributeError "list object has no attribute drop")

/-- `obj.empty`: defined on a `DataFrame`; on a plain list Python raises
`AttributeError`. -/
def empty : PyTabular → Except PyErr Bool
  | .pyDataFrame _ rows => .ok rows.isEmpty
  | .pyList _ => .error (.attributeError "list object has no attribute empty")

/-- `obj[name]` for a string `name`: column projection on a `DataFrame`
(raising `KeyError` for an unknown column); on a plain list Python raises
`TypeError` (list indices must be integers). -/
def getColumn : PyTabular → String → Except PyErr (List String)
  | .pyDataFrame cols rows, name =>
    if name ∈ cols then
      .ok (rows.map (fun r => r.getD (cols.indexOf name) ""))
    else
      .error (.keyError name)
  | .pyList _, _ =>
    .error (.typeError "list indices must be integers or slices, not str")

end PyTabular

/-- pandas `Series.unique().tolist()`: distinct values in order of first
occurrence. -/
def pdUnique (l : List String) : List String :=
  l.foldl (fun acc x => if x ∈ acc then acc else acc ++ [x]) []

namespace PatientDataFilterLogic

open DatabaseHandler

/-- `PatientDataFilterLogic._get_full_filtered_data`: patient-id lookup,
then breast-side filter, then image-view filter.  `DatabaseHandler`
returns a plain list of row tuples, so the result is one. -/
def _get_full_filtered_data (db : List Row)
    (patient_id breast_side image_view : String) : List Row :=
  let patient_df := get_rows_by_patient_id db patient_id
  let side_filtered_df := filter_by_breast_side patient_df breast_side
  let final_filtered_df := filter_by_image_view side_filtered_df image_view
  final_filtered_df

/-- `PatientDataFilterLogic.get_all_patient_ids`: opens the store (a
`none` store models a failing open) and fetches the distinct
`patient_id` values; any exception is caught and the empty list is
returned instead. -/
def get_all_patient_ids (store : Option Table) : List String :=
  match store with
  | none => []
  | some t =>
    match get_distinct_values ⟨some t⟩ "patient_id" with
    | .ok ids => ids
    | .error _ => []

/-- Python truthiness of an `Optional[str]` argument: `None` and the
empty string are falsy. -/
def truthyStr : Option String → Bool
  | none => false
  | some s => s != ""

/-- The result dictionary of `get_dependent_options`. -/
structure Options where
  breast_sides : List String
  image_views : List String
  deriving DecidableEq, Repr

/-- The `try:` block of `PatientDataFilterLogic.get_dependent_options`,
embedded statement by statement.  `patient_df` is the plain list returned
by `get_rows_by_patient_id`, on which the code immediately calls the
DataFrame property `.empty`. -/
def get_dependent_options_try (db : List Row) (patient_id : String)
    (breast_side : Option String) : Except PyErr Options := do
  let patient_rows := get_rows_by_patient_id db patient_id
  let patient_df : PyTabular := .pyList patient_rows
  if (← patient_df.empty) then
    return ⟨[], []⟩
  if truthyStr breast_side then
    let side_df : PyTabular :=
      .pyList (filter_by_breast_side patient_rows (breast_side.getD ""))
    let sides ← patient_df.getColumn "left or right breast"
    let views ← side_df.getColumn "image view"
    return ⟨pdUnique sides, pdUnique views⟩
  else
    let sides ← patient_df.getColumn "left or right breast"
    let views ← patient_df.getColumn "image view"
    return ⟨pdUnique sides, pdUnique views⟩

/-- `PatientDataFilterLogic.get_dependent_options`: returns the empty
options for a falsy `patient_id`; otherwise runs the `try:` block and, on
any exception, returns the (still empty) options dictionary. -/
def get_dependent_options (db : List Row) (patient_id : String)
    (breast_side : Option String) : Options :=
  let options : Options := ⟨[], []⟩
  if patient_id == "" then options
  else
    match get_dependent_options_try db patient_id breast_side with
    | .ok res => res
    | .error _ => options

/-- The `columns_to_drop` list of
`PatientDataFilterLogic.get_patient_filtered_data`. -/
def columns_to_drop : List String :=
  ["patient_id", "left or right breast", "image view",
   "image file path", "cropped image file path", "ROI mask file path",
   "global image dicom path", "global mask dicom path"]

/-- `PatientDataFilterLogic.get_patient_filtered_data`: filters, then
calls `.drop(columns=columns_to_drop, errors="ignore")` on the value
returned by the filtering pipeline (a plain Python list). -/
def get_patient_filtered_data (db : List Row)
    (patient_id breast_side image_view : String) :
    Except PyErr PyTabular :=
  let final_filtered_df : PyTabular :=
    .pyList (_get_full_filtered_data db patient_id breast_side image_view)
  final_filtered_df.drop columns_to_drop

/-- `PatientDataFilterLogic.get_patient_dicom_path`: re-runs the
three-stage filter, projects the DICOM path column, raises
`FileNotFoundError` when no path was extracted, and otherwise returns
`Path(dicom_paths[0])`. -/
def get_patient_dicom_path (db : List Row)
    (patient_id breast_side image_view : String) : Except PyErr String :=
  let final_filtered_df :=
    _get_full_filtered_data db patient_id breast_side image_view
  let dicom_paths := get_dicom_paths final_filtered_df
  match dicom_paths with
  | [] => .error (.fileNotFoundError "No DICOM path found for the specified filters.")
  | p :: _ => .ok p

end PatientDataFilterLogic

namespace DataIngestion

/-- A record of the file-location index table (`metadata.csv`): the
columns `Subject ID` and `File Location` used by the path lookup. -/
structure MetaRow where
  subject_id : String
  file_location : String
  deriving DecidableEq, Repr

/-- A row of the findings table (`mass_case_description_train_set.csv`):
the two relative-path columns used by the lookup, plus the remaining
clinical columns, opaque to ingestion. -/
structure FindingRow where
  image_file_path : String
  roi_mask_file_path : String
  other_fields : List String
  deriving DecidableEq, Repr

/-- A row of the augmented table: the original finding row with the two
derived path columns appended. -/
structure AugmentedRow where
  base : FindingRow
  global_image_dicom_path : String
  global_mask_dicom_path : String
  deriving DecidableEq, Repr

/-- Python `s.split("/")[0]`: the leading path segment — the characters
before the first `/` (the whole string when there is none). -/
def leadingSegment (s : String) : String :=
  String.mk (s.data.takeWhile (fun c => c != '/'))

/-- `DataIngestion._get_full_dicom_path`: takes the leading path segment
of each path column, selects the matching file-location records with
`metadata_df.loc[metadata_df["Subject ID"] == name]`, and reads each
match set with `.iloc[0]` — which raises `IndexError` on an empty match
set and silently uses the first record otherwise.  `base / location` is
the `pathlib` join. -/
def _get_full_dicom_path (metadata_df : List MetaRow) (data_path : String)
    (row : FindingRow) : Except PyErr (String × String) :=
  let image_folder_name := leadingSegment row.image_file_path
  let mask_folder_name := leadingSegment row.roi_mask_file_path
  let metadata_image_folder :=
    metadata_df.filter (fun m => m.subject_id == image_folder_name)
  let metadata_mask_folder :=
    metadata_df.filter (fun m => m.subject_id == mask_folder_name)
  match metadata_image_folder with
  | [] => .error (.indexError "single positional indexer is out-of-bounds")
  | image_row :: _ =>
    match metadata_mask_folder with
    | [] => .error (.indexError "single positional indexer is out-of-bounds")
    | mask_row :: _ =>
      .ok (data_path ++ "/" ++ image_row.file_location,
        data_path ++ "/" ++ mask_row.file_location)

/-- `DataIngestion.patient_data_df_with_dicom_paths`: applies
`_get_full_dicom_path` row-wise over a copy of the findings table
(`.apply(..., axis=1, result_type="expand")`) and appends the two
resulting columns; a raise from any row propagates and aborts the whole
computation, leaving no partial table. -/
def patient_data_df_with_dicom_paths (metadata_df : List MetaRow)
    (data_path : String) : List FindingRow → Except PyErr (List AugmentedRow)
  | [] => .ok []
  | row :: rest =>
    match _get_full_dicom_path metadata_df data_path row with
    | .error e => .error e
    | .ok paths =>
      match patient_data_df_with_dicom_paths metadata_df data_path rest with
      | .error e => .error e
      | .ok out => .ok (⟨row, paths.1, paths.2⟩ :: out)

end DataIngestion

namespace DicomHandler

/-- One direct entry of a scanned folder, in directory-listing order:
its path, whether it is a regular file, and whether
`pydicom.dcmread(..., stop_before_pixels=True)` accepts it (a rejected
entry raises `InvalidDicomError`, which the scan catches). -/
structure DirEntry where
  path : String
  is_file : Bool
  is_valid_dicom : Bool
  deriving DecidableEq, Repr

/-- `DicomHandler._find_first_dicom_file`: `none` for the folder models a
path that is not a directory (the method prints and returns `None`);
otherwise the first file entry that the header-only decode accepts is
returned, decode failures are skipped, and `None` is returned when no
entry validates. -/
def _find_first_dicom_file (folder : Option (List DirEntry)) :
    Option String :=
  match folder with
  | none => none
  | some entries =>
    (entries.find? (fun e => e.is_file && e.is_valid_dicom)).map
      (fun e => e.path)

/-- The `tags_to_extract` list of `DicomHandler.get_metadata`. -/
def tags_to_extract : List String :=
  ["PatientName", "PatientID", "PatientBirthDate", "PatientSex", "PatientAge",
   "StudyInstanceUID", "SeriesInstanceUID", "SOPInstanceUID", "StudyID",
   "SeriesNumber", "AcquisitionDate", "StudyDescription", "SeriesDescription",
   "Modality", "Manufacturer", "Rows", "Columns", "PixelSpacing"]

/-- A loaded DICOM dataset, observed through the tag lookups that
`get_metadata` performs: a tag maps to `some v` when `dataset[tag]` and
`str(element.value)` succeed with text `v`, and to `none` when the
element is present but unreadable (the `AttributeError` case); an absent
tag is simply missing from the association list (the `KeyError` case). -/
abbrev Dataset := List (String × Option String)

/-- The value the loop body of `get_metadata` stores for one tag:
`str(self.dataset[tag].value)`, or the `"N/A"` fallback when the lookup
raises `KeyError` (absent tag) or `AttributeError` (unreadable value). -/
def tagValue (ds : Dataset) (tag : String) : String :=
  match ds.lookup tag with
  | some (some v) => v
  | some none => "N/A"
  | none => "N/A"

/-- `DicomHandler.get_metadata`: the empty dictionary when no dataset is
loaded; otherwise one entry per tag of `tags_to_extract`, in that order,
with `"N/A"` substituted whenever the lookup raises `KeyError` or
`AttributeError`. -/
def get_metadata (dataset : Option Dataset) : List (String × String) :=
  match dataset with
  | none => []
  | some ds =>
    tags_to_extract.map (fun tag => (tag, tagValue ds tag))

end DicomHandler

/-! ## Concrete example data used by witnesses and counterexamples -/

/-- A full 16-column row of the ingested `patients` table:
`patient_id` at index 0, `left or right breast` at index 2,
`image view` at index 3, `global image dicom path` at index 14. -/
def exampleRow : Row :=
  ["P_00001", "3", "LEFT", "CC", "1", "mass", "IRREGULAR", "SPICULATED",
   "4", "MALIGNANT", "3", "Mass-Training_P_00001_LEFT_CC/07-20-2016/1",
   "crop/1", "roi/1", "/data/IMG1", "/data/MASK1"]

/-- A one-patient database holding `exampleRow`. -/
def exampleDb : List Row := [exampleRow]

/-- A `patients` table for the SQL-level queries: two patients, one NULL
cell, `patient_id` values out of order and with a duplicate. -/
def exampleTable : DatabaseHandler.Table :=
  { columns := ["patient_id", "pathology"],
    rows := [[some "P_2", some "MALIGNANT"],
             [some "P_1", none],
             [some "P_2", some "BENIGN"]] }

/-- A table without a `patient_id` column. -/
def exampleTableNoPid : DatabaseHandler.Table :=
  { columns := ["pathology"], rows := [[some "BENIGN"]] }

/-- A findings row whose two path references both lead with subject id
`S1`. -/
def exampleFinding : DataIngestion.FindingRow :=
  { image_file_path := "S1/study/series/img.dcm",
    roi_mask_file_path := "S1/study/series/mask.dcm",
    other_fields := ["P_00001", "LEFT", "CC"] }

/-- A file-location table in which subject id `S1` matches two records —
an ambiguous reference. -/
def exampleMetaDup : List DataIngestion.MetaRow :=
  [{ subject_id := "S1", file_location := "LOC_A" },
   { subject_id := "S1", file_location := "LOC_B" }]

/-- A folder listing with a non-DICOM file, a subdirectory, and two valid
DICOM files. -/
def exampleEntries : List DicomHandler.DirEntry :=
  [{ path := "notes.txt", is_file := true, is_valid_dicom := false },
   { path := "series2", is_file := false, is_valid_dicom := true },
   { path := "img1.dcm", is_file := true, is_valid_dicom := true },
   { path := "img2.dcm", is_file := true, is_valid_dicom := true }]

/-- A small DICOM dataset: one readable tag, one present-but-unreadable
tag, everything else absent. -/
def exampleDataset : DicomHandler.Dataset :=
  [("PatientID", some "P_00001"), ("PixelSpacing", none)]

/-! ## Helper lemmas -/

/-- `List.find?` returns the first element satisfying the predicate:
the list splits around the hit, and everything before it fails the
predicate. -/
theorem find_eq_some_first {α : Type} (q : α → Bool) (l : List α) (a : α)
    (h : l.find? q = some a) :
    ∃ l1 l2, l = l1 ++ a :: l2 ∧ q a = true ∧ ∀ x ∈ l1, q x = false := by
  induction l with
  | nil => simp at h
  | cons b l ih =>
    by_cases hb : q b
    · rw [List.find?_cons_of_pos _ hb] at h
      cases h
      exact ⟨[], l, rfl, hb, by simp⟩
    · rw [List.find?_cons_of_neg _ hb] at h
      obtain ⟨l1, l2, rfl, hq, hall⟩ := ih h
      refine ⟨b :: l1, l2, rfl, hq, ?_⟩
      intro x hx
      rcases List.mem_cons.mp hx with rfl | hx
      · exact Bool.eq_false_iff.mpr hb
      · exact hall x hx

/-- When every row is long enough for the DICOM-path column,
`get_dicom_paths` is exactly the column projection, row by row. -/
theorem get_dicom_paths_all_long (rows : List Row)
    (h : ∀ r ∈ rows, 14 < r.length) :
    DatabaseHandler.get_dicom_paths rows =
      rows.map (fun r => r.getD 14 "") := by
  simp only [DatabaseHandler.get_dicom_paths]
  rw [List.filter_eq_self.mpr]
  intro r hr
  exact decide_eq_true (h r hr)

/-- Looking up a key in an association list built by pairing each element
of a duplicate-free source list with a computed value. -/
theorem lookup_map_self (f : String → String) (l : List String)
    (tag : String) (h : tag ∈ l) :
    (l.map (fun t => (t, f t))).lookup tag = some (f tag) := by
  induction l with
  | nil => simp at h
  | cons a l ih =>
    simp only [List.map_cons, List.lookup]
    by_cases hta : tag = a
    · simp [hta]
    · have hmem : tag ∈ l := by
        rcases List.mem_cons.mp h with rfl | hm
        · exact absurd rfl hta
        · exact hm
      have hbeq : (tag == a) = false := beq_eq_false_iff_ne.mpr hta
      simp [hbeq, ih hmem]

/-! ## Claim theorems -/

/-- Claim C1 (code bug): `get_patient_filtered_data` never returns the
filtered record — `DatabaseHandler` hands back a plain Python list of row
tuples and the method calls the DataFrame method `.drop` on it, so the
call raises `AttributeError` even when a row matches the three filters. -/
theorem C1_get_patient_filtered_data_raises :
    PatientDataFilterLogic._get_full_filtered_data exampleDb "P_00001" "LEFT" "CC"
        = [exampleRow] ∧
    PatientDataFilterLogic.get_patient_filtered_data exampleDb "P_00001" "LEFT" "CC"
        = .error (.attributeError "list object has no attribute drop") := by
  constructor
  · decide
  · rfl

/-- Claim C2 (code bug): `get_dependent_options` returns two empty lists
even for a patient that has a matching row — the `try:` block calls the
DataFrame property `.empty` on the plain list returned by
`get_rows_by_patient_id`, the resulting `AttributeError` is swallowed by
the `except Exception` clause, and the untouched empty options dictionary
is returned. -/
theorem C2_get_dependent_options_always_empty :
    DatabaseHandler.get_rows_by_patient_id exampleDb "P_00001" = [exampleRow] ∧
    PatientDataFilterLogic.get_dependent_options exampleDb "P_00001" none
        = ⟨[], []⟩ ∧
    PatientDataFilterLogic.get_dependent_options exampleDb "P_00001" (some "LEFT")
        = ⟨[], []⟩ := by
  refine ⟨by decide, rfl, rfl⟩

/-- Claim C10: the three fixed-index row operations guard every index
access with `len(row) > column_index`: a row not longer than the index
(2, 3, 14 respectively) is silently excluded from the result, and every
result element comes from a row long enough for the access. -/
theorem C10_fixed_index_guards (rows : List Row) (side image_view : String) :
    (∀ r ∈ DatabaseHandler.filter_by_breast_side rows side, 2 < r.length) ∧
    (∀ r ∈ rows, r.length ≤ 2 →
      r ∉ DatabaseHandler.filter_by_breast_side rows side) ∧
    (∀ r ∈ DatabaseHandler.filter_by_image_view rows image_view, 3 < r.length) ∧
    (∀ r ∈ rows, r.length ≤ 3 →
      r ∉ DatabaseHandler.filter_by_image_view rows image_view) ∧
    (∀ p ∈ DatabaseHandler.get_dicom_paths rows,
      ∃ r ∈ rows, 14 < r.length ∧ r.getD 14 "" = p) ∧
    (DatabaseHandler.get_dicom_paths rows =
      DatabaseHandler.get_dicom_paths
        (rows.filter (fun r => decide (14 < r.length)))) := by
  refine ⟨?_, ?_, ?_, ?_, ?_, ?_⟩
  · intro r hr
    simp only [DatabaseHandler.filter_by_breast_side, List.mem_filter,
      Bool.and_eq_true, decide_eq_true_eq] at hr
    exact hr.2.1
  · intro r _ hlen hmem
    simp only [DatabaseHandler.filter_by_breast_side, List.mem_filter,
      Bool.and_eq_true, decide_eq_true_eq] at hmem
    omega
  · intro r hr
    simp only [DatabaseHandler.filter_by_image_view, List.mem_filter,
      Bool.and_eq_true, decide_eq_true_eq] at hr
    exact hr.2.1
  · intro r _ hlen hmem
    simp only [DatabaseHandler.filter_by_image_view, List.mem_filter,
      Bool.and_eq_true, decide_eq_true_eq] at hmem
    omega
  · intro p hp
    simp only [DatabaseHandler.get_dicom_paths, List.mem_map, List.mem_filter,
      decide_eq_true_eq] at hp
    obtain ⟨r, ⟨hr, hlen⟩, rfl⟩ := hp
    exact ⟨r, hr, hlen, rfl⟩
  · simp [DatabaseHandler.get_dicom_paths, List.filter_filter]

/-- Witness for C10 at a concrete short row: a two-element row is dropped
by the breast-side filter instead of causing an out-of-range access. -/
theorem C10_fixed_index_guards_witness :
    ["P_00001", "3"] ∉
      DatabaseHandler.filter_by_breast_side [["P_00001", "3"]] "LEFT" :=
  (C10_fixed_index_guards [["P_00001", "3"]] "LEFT" "CC").2.1
    ["P_00001", "3"] (by decide) (by decide)

/-- Claim C8: `_find_first_dicom_file` returns `none` (not an error) for
a non-directory and for a folder with no valid entry; otherwise it
returns the path of the first file entry accepted by the header-only
decode, skipping every earlier entry that is not a valid DICOM file. -/
theorem C8_first_valid_dicom (entries : List DicomHandler.DirEntry) :
    (DicomHandler._find_first_dicom_file none = none) ∧
    (DicomHandler._find_first_dicom_file (some entries) = none ↔
      ∀ e ∈ entries, ¬(e.is_file = true ∧ e.is_valid_dicom = true)) ∧
    (∀ p, DicomHandler._find_first_dicom_file (some entries) = some p →
      ∃ l1 e l2, entries = l1 ++ e :: l2 ∧ e.is_file = true ∧
        e.is_valid_dicom = true ∧ e.path = p ∧
        ∀ e2 ∈ l1, ¬(e2.is_file = true ∧ e2.is_valid_dicom = true)) := by
  refine ⟨rfl, ?_, ?_⟩
  · simp [DicomHandler._find_first_dicom_file, Option.map_eq_none',
      List.find?_eq_none]
  · intro p hp
    simp only [DicomHandler._find_first_dicom_file, Option.map_eq_some'] at hp
    obtain ⟨e, he, rfl⟩ := hp
    obtain ⟨l1, l2, rfl, hq, hall⟩ := find_eq_some_first _ _ _ he
    rw [Bool.and_eq_true] at hq
    refine ⟨l1, e, l2, rfl, hq.1, hq.2, rfl, ?_⟩
    intro e2 he2
    have h2 := hall e2 he2
    intro hcontra
    rw [hcontra.1, hcontra.2] at h2
    simp at h2

/-- Witness for C8: a folder whose only entry fails the header decode
yields `none`, with no error. -/
theorem C8_first_valid_dicom_witness :
    DicomHandler._find_first_dicom_file
      (some [{ path := "notes.txt", is_file := true, is_valid_dicom := false }])
      = none :=
  (C8_first_valid_dicom
    [{ path := "notes.txt", is_file := true, is_valid_dicom := false }]).2.1.mpr
    (by decide)

/-- Claim C9: `get_all_patient_ids` is total — a failing store open is
answered with the empty list, an invalid `patient_id` column is answered
with the empty list, and only a successful distinct-values query produces
a non-trivial result. -/
theorem C9_get_all_patient_ids_total (store : Option DatabaseHandler.Table) :
    (store = none → PatientDataFilterLogic.get_all_patient_ids store = []) ∧
    (∀ t, store = some t →
      ("patient_id" ∉ t.columns →
        PatientDataFilterLogic.get_all_patient_ids store = []) ∧
      ("patient_id" ∈ t.columns →
        PatientDataFilterLogic.get_all_patient_ids store =
          DatabaseHandler.sqlDistinctSorted
            (DatabaseHandler.columnValues t "patient_id"))) := by
  constructor
  · intro h
    subst h
    rfl
  · intro t ht
    subst ht
    constructor
    · intro hnot
      simp [PatientDataFilterLogic.get_all_patient_ids,
        DatabaseHandler.get_distinct_values, hnot]
    · intro hmem
      simp [PatientDataFilterLogic.get_all_patient_ids,
        DatabaseHandler.get_distinct_values, hmem]

/-- Witness for C9: on a table without a `patient_id` column the
function returns the empty list instead of raising. -/
theorem C9_get_all_patient_ids_total_witness :
    PatientDataFilterLogic.get_all_patient_ids (some exampleTableNoPid) = [] :=
  ((C9_get_all_patient_ids_total (some exampleTableNoPid)).2
    exampleTableNoPid rfl).1 (by decide)

/-- Claim C5: with an open handle, `get_distinct_values` raises
`ValueError` exactly when the requested column is not among the table's
columns, and otherwise returns the distinct non-null values of the
column, sorted ascending and without duplicates. -/
theorem C5_distinct_values_spec (t : DatabaseHandler.Table) (col : String) :
    (col ∉ t.columns →
      DatabaseHandler.get_distinct_values ⟨some t⟩ col =
        .error (.valueError "Invalid column name: does not exist in the table.")) ∧
    (col ∈ t.columns →
      DatabaseHandler.get_distinct_values ⟨some t⟩ col =
        .ok (DatabaseHandler.sqlDistinctSorted
          (DatabaseHandler.columnValues t col)) ∧
      (DatabaseHandler.sqlDistinctSorted
        (DatabaseHandler.columnValues t col)).Sorted (· ≤ ·) ∧
      (DatabaseHandler.sqlDistinctSorted
        (DatabaseHandler.columnValues t col)).Nodup ∧
      ∀ v, v ∈ DatabaseHandler.sqlDistinctSorted
          (DatabaseHandler.columnValues t col) ↔
        some v ∈ DatabaseHandler.columnValues t col) := by
  constructor
  · intro h
    simp [DatabaseHandler.get_distinct_values, h]
  · intro h
    refine ⟨by simp [DatabaseHandler.get_distinct_values, h], ?_, ?_, ?_⟩
    · exact List.sorted_insertionSort _ _
    · simp only [DatabaseHandler.sqlDistinctSorted]
      exact ((List.perm_insertionSort _ _).nodup_iff).mpr (List.nodup_dedup _)
    · intro v
      simp [DatabaseHandler.sqlDistinctSorted, List.mem_insertionSort,
        List.mem_dedup, List.mem_filterMap]

/-- Witness for C5: on a concrete table, `patient_id` values come back
deduplicated and sorted, and a nonexistent column raises `ValueError`. -/
theorem C5_distinct_values_spec_witness :
    DatabaseHandler.get_distinct_values ⟨some exampleTable⟩ "patient_id" =
      .ok ["P_1", "P_2"] ∧
    DatabaseHandler.get_distinct_values ⟨some exampleTable⟩ "nonexistent_column" =
      .error (.valueError "Invalid column name: does not exist in the table.") := by
  constructor
  · have h := ((C5_distinct_values_spec exampleTable "patient_id").2 (by decide)).1
    have hd : ((DatabaseHandler.columnValues exampleTable "patient_id").filterMap
        id).dedup = ["P_1", "P_2"] := by decide
    have h2 : DatabaseHandler.sqlDistinctSorted
        (DatabaseHandler.columnValues exampleTable "patient_id") = ["P_1", "P_2"] := by
      simp only [DatabaseHandler.sqlDistinctSorted, hd]
      apply List.Sorted.insertionSort_eq
      simp [List.sorted_cons, String.le_iff_toList_le]
      decide
    rw [h, h2]
  · exact (C5_distinct_values_spec exampleTable "nonexistent_column").1 (by decide)

/-- Claim C4: `get_patient_dicom_path` runs the same three-stage filter
as the filtered-record path, raises `FileNotFoundError` exactly when the
path projection over the matching rows is empty and — whenever every
matching row carries the path column — returns the DICOM path of the
first matching row in stable input order, ignoring later matches. -/
theorem C4_dicom_path_first_match (db : List Row)
    (pid side view : String) :
    (PatientDataFilterLogic._get_full_filtered_data db pid side view =
      DatabaseHandler.filter_by_image_view
        (DatabaseHandler.filter_by_breast_side
          (DatabaseHandler.get_rows_by_patient_id db pid) side) view) ∧
    (PatientDataFilterLogic.get_patient_dicom_path db pid side view =
        .error (.fileNotFoundError "No DICOM path found for the specified filters.") ↔
      DatabaseHandler.get_dicom_paths
        (PatientDataFilterLogic._get_full_filtered_data db pid side view) = []) ∧
    ((∀ r ∈ PatientDataFilterLogic._get_full_filtered_data db pid side view,
        14 < r.length) →
      PatientDataFilterLogic.get_patient_dicom_path db pid side view =
        match PatientDataFilterLogic._get_full_filtered_data db pid side view with
        | [] => .error
            (.fileNotFoundError "No DICOM path found for the specified filters.")
        | r :: _ => .ok (r.getD 14 "")) := by
  refine ⟨rfl, ?_, ?_⟩
  · simp only [PatientDataFilterLogic.get_patient_dicom_path]
    cases h : DatabaseHandler.get_dicom_paths
        (PatientDataFilterLogic._get_full_filtered_data db pid side view) with
    | nil => simp [h]
    | cons p ps => simp [h]
  · intro hlen
    have hmap := get_dicom_paths_all_long _ hlen
    simp only [PatientDataFilterLogic.get_patient_dicom_path, hmap]
    cases PatientDataFilterLogic._get_full_filtered_data db pid side view with
    | nil => rfl
    | cons r rs => rfl

/-- Witness for C4: on a database with one matching full-width row, the
resolver returns that row's DICOM path. -/
theorem C4_dicom_path_first_match_witness :
    PatientDataFilterLogic.get_patient_dicom_path exampleDb "P_00001" "LEFT" "CC" =
      .ok "/data/IMG1" := by
  have h := (C4_dicom_path_first_match exampleDb "P_00001" "LEFT" "CC").2.2 (by decide)
  have h2 : PatientDataFilterLogic._get_full_filtered_data
      exampleDb "P_00001" "LEFT" "CC" = [exampleRow] := by decide
  rw [h2] at h
  exact h

/-- Claim C6: for a loaded dataset, `get_metadata` returns a mapping
whose key sequence is exactly the fixed `tags_to_extract` list, each tag
mapped to its readable value and every missing or unreadable tag mapped
to the sentinel `"N/A"` rather than omitted. -/
theorem C6_metadata_tag_completeness (ds : DicomHandler.Dataset) :
    (DicomHandler.get_metadata (some ds)).map Prod.fst =
      DicomHandler.tags_to_extract ∧
    (∀ tag ∈ DicomHandler.tags_to_extract,
      (DicomHandler.get_metadata (some ds)).lookup tag =
        some (DicomHandler.tagValue ds tag)) ∧
    (∀ tag ∈ DicomHandler.tags_to_extract, (ds.lookup tag).join = none →
      (DicomHandler.get_metadata (some ds)).lookup tag = some "N/A") := by
  have hlookup : ∀ tag ∈ DicomHandler.tags_to_extract,
      (DicomHandler.get_metadata (some ds)).lookup tag =
        some (DicomHandler.tagValue ds tag) := by
    intro tag htag
    simp only [DicomHandler.get_metadata]
    exact lookup_map_self (DicomHandler.tagValue ds) _ tag htag
  refine ⟨?_, hlookup, ?_⟩
  · simp only [DicomHandler.get_metadata, List.map_map]
    exact List.map_id _
  · intro tag htag hjoin
    rw [hlookup tag htag]
    cases hds : ds.lookup tag with
    | none => simp [DicomHandler.tagValue, hds]
    | some o =>
      cases o with
      | none => simp [DicomHandler.tagValue, hds]
      | some v => rw [hds] at hjoin; simp at hjoin

/-- Witness for C6: against a dataset populating only `PatientID` (and an
unreadable `PixelSpacing`), the key sequence is the full tag list and
missing/unreadable tags read back as `"N/A"`. -/
theorem C6_metadata_tag_completeness_witness :
    (DicomHandler.get_metadata (some exampleDataset)).map Prod.fst =
      DicomHandler.tags_to_extract ∧
    (DicomHandler.get_metadata (some exampleDataset)).lookup "PatientName" =
      some "N/A" ∧
    (DicomHandler.get_metadata (some exampleDataset)).lookup "PixelSpacing" =
      some "N/A" ∧
    (DicomHandler.get_metadata (some exampleDataset)).lookup "PatientID" =
      some "P_00001" := by
  refine ⟨(C6_metadata_tag_completeness exampleDataset).1, ?_, ?_, ?_⟩
  · exact (C6_metadata_tag_completeness exampleDataset).2.2 "PatientName"
      (by decide) (by decide)
  · exact (C6_metadata_tag_completeness exampleDataset).2.2 "PixelSpacing"
      (by decide) (by decide)
  · exact ((C6_metadata_tag_completeness exampleDataset).2.1 "PatientID"
      (by decide)).trans (by decide)

/-- Claim C7: whenever ingestion succeeds, the augmented table has the
same row count and order as the findings input with every original row
preserved unchanged (the two derived path columns are the only
additions, each the result of that row's path resolution), and a failing
per-row resolution aborts the whole ingestion with an error — no partial
table is produced. -/
theorem C7_ingest_frame (md : List DataIngestion.MetaRow) (dp : String)
    (rows : List DataIngestion.FindingRow) :
    (∀ out, DataIngestion.patient_data_df_with_dicom_paths md dp rows = .ok out →
      out.map DataIngestion.AugmentedRow.base = rows ∧
      out.length = rows.length ∧
      ∀ a ∈ out, DataIngestion._get_full_dicom_path md dp a.base =
        .ok (a.global_image_dicom_path, a.global_mask_dicom_path)) ∧
    (∀ r ∈ rows,
      (∃ e, DataIngestion._get_full_dicom_path md dp r = .error e) →
      ∃ e, DataIngestion.patient_data_df_with_dicom_paths md dp rows = .error e) := by
  induction rows with
  | nil =>
    constructor
    · intro out hout
      cases hout
      exact ⟨rfl, rfl, by simp⟩
    · intro r hr
      simp at hr
  | cons row rest ih =>
    constructor
    · intro out hout
      simp only [DataIngestion.patient_data_df_with_dicom_paths] at hout
      cases hpath : DataIngestion._get_full_dicom_path md dp row with
      | error e => rw [hpath] at hout; simp at hout
      | ok paths =>
        obtain ⟨ip, mp⟩ := paths
        rw [hpath] at hout
        cases hrest : DataIngestion.patient_data_df_with_dicom_paths md dp rest with
        | error e => rw [hrest] at hout; simp at hout
        | ok out2 =>
          rw [hrest] at hout
          cases hout
          obtain ⟨h1, h2, h3⟩ := ih.1 out2 hrest
          refine ⟨?_, ?_, ?_⟩
          · simp [h1]
          · simp [h2]
          · intro a ha
            rcases List.mem_cons.mp ha with rfl | ha
            · exact hpath
            · exact h3 a ha
    · intro r hr herr
      rcases List.mem_cons.mp hr with rfl | hr
      · obtain ⟨e, he⟩ := herr
        refine ⟨e, ?_⟩
        simp only [DataIngestion.patient_data_df_with_dicom_paths]
        rw [he]
      · obtain ⟨e2, he2⟩ := ih.2 r hr herr
        cases hpath : DataIngestion._get_full_dicom_path md dp row with
        | error e =>
          refine ⟨e, ?_⟩
          simp only [DataIngestion.patient_data_df_with_dicom_paths]
          rw [hpath]
        | ok paths =>
          refine ⟨e2, ?_⟩
          simp only [DataIngestion.patient_data_df_with_dicom_paths]
          rw [hpath, he2]

/-- Witness for C7: a successful one-row ingestion preserves the input
row as the `base` of the single augmented row. -/
theorem C7_ingest_frame_witness :
    [DataIngestion.AugmentedRow.mk exampleFinding "/base/LOC_A" "/base/LOC_A"].map
        DataIngestion.AugmentedRow.base = [exampleFinding] :=
  ((C7_ingest_frame exampleMetaDup "/base" [exampleFinding]).1
    [DataIngestion.AugmentedRow.mk exampleFinding "/base/LOC_A" "/base/LOC_A"]
    rfl).1

/-- Claim C3 fails on the code (counterexample): with two file-location
records matching subject id `S1`, ingestion of a one-row findings table
silently succeeds and produces a path from the first matching record —
no ambiguity error of any kind is raised. -/
theorem C3_ambiguous_match_counterexample :
    (exampleMetaDup.filter (fun m =>
      m.subject_id == DataIngestion.leadingSegment
        exampleFinding.image_file_path)).length = 2 ∧
    DataIngestion.patient_data_df_with_dicom_paths exampleMetaDup "/base"
        [exampleFinding] =
      .ok [DataIngestion.AugmentedRow.mk exampleFinding "/base/LOC_A" "/base/LOC_A"] :=
  ⟨by decide, rfl⟩

/-- Claim C3 as amended: the subject-id lookup raises an error
(`IndexError` from `.iloc[0]`, aborting the row) exactly when a lookup
has zero matches; when both lookups have at least one match — including
ambiguous ones with several matches — it silently resolves the paths
from the first matching record of each lookup. -/
theorem C3_lookup_amended (md : List DataIngestion.MetaRow) (dp : String)
    (row : DataIngestion.FindingRow) :
    ((md.filter (fun x => x.subject_id ==
        DataIngestion.leadingSegment row.image_file_path)) = [] →
      DataIngestion._get_full_dicom_path md dp row =
        .error (.indexError "single positional indexer is out-of-bounds")) ∧
    (∀ i it, md.filter (fun x => x.subject_id ==
        DataIngestion.leadingSegment row.image_file_path) = i :: it →
      md.filter (fun x => x.subject_id ==
        DataIngestion.leadingSegment row.roi_mask_file_path) = [] →
      DataIngestion._get_full_dicom_path md dp row =
        .error (.indexError "single positional indexer is out-of-bounds")) ∧
    (∀ i it m mt, md.filter (fun x => x.subject_id ==
        DataIngestion.leadingSegment row.image_file_path) = i :: it →
      md.filter (fun x => x.subject_id ==
        DataIngestion.leadingSegment row.roi_mask_file_path) = m :: mt →
      DataIngestion._get_full_dicom_path md dp row =
        .ok (dp ++ "/" ++ i.file_location, dp ++ "/" ++ m.file_location)) := by
  refine ⟨?_, ?_, ?_⟩
  · intro h
    simp only [DataIngestion._get_full_dicom_path, h]
  · intro i it h1 h2
    simp only [DataIngestion._get_full_dicom_path, h1, h2]
  · intro i it m mt h1 h2
    simp only [DataIngestion._get_full_dicom_path, h1, h2]

/-- Witness for the amended C3: on the duplicated file-location table the
lookup resolves to the first matching record of each match set. -/
theorem C3_lookup_amended_witness :
    DataIngestion._get_full_dicom_path exampleMetaDup "/base" exampleFinding =
      .ok ("/base/LOC_A", "/base/LOC_A") :=
  (C3_lookup_amended exampleMetaDup "/base" exampleFinding).2.2
    ⟨"S1", "LOC_A"⟩ [⟨"S1", "LOC_B"⟩] ⟨"S1", "LOC_A"⟩ [⟨"S1", "LOC_B"⟩]
    (by decide) (by decide)
